import Mathlib

/-!
Shallow embedding of the cosmetics-inventory tracker's core logic:
the expiration calculator on `CosmeticProduct` (myapp/models.py) and the
product list query of `CosmeticProductListView` (myapp/views.py).

Dates are modelled as integers (days since an arbitrary epoch); a nullable
date field is `Option Int`.  Python expressions that can raise (such as
`min(None, date)`, a `TypeError` in Python 3) are modelled with `Except`.
-/

namespace Cosmetics

/-- Fields of `CosmeticProduct` (myapp/models.py lines 44-100) that the
expiration calculator and the list-view query read.  `expiration_date` is
kept nullable, matching the defensive `is None` checks in the model code;
`pao_after_opening` is a non-nullable positive integer with default 12. -/
structure Product where
  name : String
  brandName : String
  categoryId : Option Nat
  categoryName : String
  shade : String
  userId : Nat
  expiration_date : Option Int
  status : String
  opened_date : Option Int
  pao_after_opening : Nat
deriving DecidableEq

/-- Embedding of `CosmeticProduct.effective_expiration_date` (models.py lines
134-140): if `status == 'opened' and self.opened_date`, compute
`pao_expiry = opened_date + timedelta(days=pao_after_opening * 30)` and return
`min(self.expiration_date, pao_expiry)`; otherwise return `expiration_date`.
When `expiration_date` is `None` on the opened branch, Python's `min` raises
`TypeError`, modelled as `Except.error`. -/
def effective_expiration_date (p : Product) : Except String (Option Int) :=
  match p.status == "opened", p.opened_date with
  | true, some od =>
    let pao_expiry : Int := od + (p.pao_after_opening : Int) * 30
    match p.expiration_date with
    | some ed => Except.ok (some (min ed pao_expiry))
    | none => Except.error "TypeError"
  | _, _ => Except.ok p.expiration_date

/-- Embedding of `CosmeticProduct.days_until_expiration` (models.py lines
142-149): `None` when the effective date is `None`, otherwise
`(effective_date - date.today()).days`. -/
def days_until_expiration (p : Product) (today : Int) : Except String (Option Int) :=
  match effective_expiration_date p with
  | Except.error e => Except.error e
  | Except.ok none => Except.ok none
  | Except.ok (some d) => Except.ok (some (d - today))

/-- Embedding of `CosmeticProduct.expiration_status` (models.py lines
151-166): "unknown" when the effective date is `None`, otherwise the cascade
`days < 0` / `days <= 7` / `days <= 30` / else.  (If `days` were `None`
past the guard, `days < 0` would raise `TypeError` in Python; that inner
branch is unreachable here since the effective date was non-`None`.) -/
def expiration_status (p : Product) (today : Int) : Except String String :=
  match effective_expiration_date p with
  | Except.error e => Except.error e
  | Except.ok none => Except.ok "unknown"
  | Except.ok (some _) =>
    match days_until_expiration p today with
    | Except.error e => Except.error e
    | Except.ok none => Except.error "TypeError"
    | Except.ok (some days) =>
      Except.ok (if days < 0 then "expired"
        else if days ≤ 7 then "urgent"
        else if days ≤ 30 then "soon"
        else "good")

/-- The `status_priority` dictionary of `CosmeticProduct.expiration_priority`
(models.py lines 168-178), with the dictionary's `.get(_, 5)` default. -/
def status_priority (s : String) : Nat :=
  if s = "expired" then 1
  else if s = "urgent" then 2
  else if s = "soon" then 3
  else if s = "good" then 4
  else if s = "unknown" then 5
  else 5

/-- Embedding of `CosmeticProduct.expiration_priority` (models.py lines
168-178). -/
def expiration_priority (p : Product) (today : Int) : Except String Nat :=
  match expiration_status p today with
  | Except.error e => Except.error e
  | Except.ok s => Except.ok (status_priority s)

/-! ### Date-range predicates, SQL `NULL` semantics

Django ORM lookups `expiration_date__lt`, `__lte`, `__gte`, `__gt` never
match a SQL NULL, so each predicate is false on `none`. -/

/-- The ORM lookup `expiration_date__lt=t`. -/
def dLt (e : Option Int) (t : Int) : Bool :=
  match e with
  | some d => decide (d < t)
  | none => false

/-- The ORM lookup `expiration_date__lte=t`. -/
def dLe (e : Option Int) (t : Int) : Bool :=
  match e with
  | some d => decide (d ≤ t)
  | none => false

/-- The ORM lookup `expiration_date__gte=t`. -/
def dGe (e : Option Int) (t : Int) : Bool :=
  match e with
  | some d => decide (t ≤ d)
  | none => false

/-- The ORM lookup `expiration_date__gt=t`. -/
def dGt (e : Option Int) (t : Int) : Bool :=
  match e with
  | some d => decide (t < d)
  | none => false

/-! ### Case-insensitive substring search (Django `icontains`) -/

/-- ASCII lower-casing of one character, as SQL `LOWER` does for the
ASCII range. -/
def lowerChar (c : Char) : Char :=
  if 65 ≤ c.toNat ∧ c.toNat ≤ 90 then Char.ofNat (c.toNat + 32) else c

/-- Whether `pat` occurs at the head of `hay`. -/
def matchHere : List Char → List Char → Bool
  | _, [] => true
  | [], _ :: _ => false
  | a :: as, b :: bs => a == b && matchHere as bs

/-- Whether `pat` occurs contiguously anywhere inside `hay`. -/
def matchSub : List Char → List Char → Bool
  | [], pat => pat.isEmpty
  | h :: t, pat => matchHere (h :: t) pat || matchSub t pat

/-- Django's `field__icontains=pat`: case-insensitive substring match. -/
def icontains (hay pat : String) : Bool :=
  matchSub (hay.toList.map lowerChar) (pat.toList.map lowerChar)

/-- The OR-combined `Q` search of `get_queryset` (views.py lines 69-75):
`name | brand__name | category__name | shade`, each `icontains`. -/
def searchMatch (p : Product) (s : String) : Bool :=
  icontains p.name s || icontains p.brandName s ||
    icontains p.categoryName s || icontains p.shade s

/-! ### `CosmeticProductListView.get_queryset` (views.py lines 37-77) -/

/-- The `if status_filter:` branch cascade of views.py lines 47-62.
An empty value skips the whole block; an unrecognized non-empty value
matches no branch, leaving the queryset unchanged. -/
def applyStatusFilter (sf : String) (today : Int) (qs : List Product) : List Product :=
  if sf = "" then qs
  else if sf = "expired" then qs.filter (fun p => dLt p.expiration_date today)
  else if sf = "urgent" then
    qs.filter (fun p => dGe p.expiration_date today && dLe p.expiration_date (today + 7))
  else if sf = "soon" then
    qs.filter (fun p => dGt p.expiration_date (today + 7) && dLe p.expiration_date (today + 30))
  else if sf = "good" then qs.filter (fun p => dGt p.expiration_date (today + 30))
  else qs

/-- The `if category_filter:` step of views.py lines 65-66; `none` models
the falsy (absent/empty) GET value. -/
def applyCategoryFilter (cf : Option Nat) (qs : List Product) : List Product :=
  match cf with
  | some c => qs.filter (fun p => p.categoryId == some c)
  | none => qs

/-- The `if search_query:` step of views.py lines 69-75. -/
def applySearchFilter (sq : String) (qs : List Product) : List Product :=
  if sq = "" then qs else qs.filter (fun p => searchMatch p sq)

/-- The single-key comparator of `order_by('expiration_date')`. -/
def expLE (a b : Option Int) : Bool :=
  match a, b with
  | none, _ => true
  | some _, none => false
  | some x, some y => decide (x ≤ y)

/-- The ordering relation `order_by('expiration_date')` sorts by. -/
def expOrder (p q : Product) : Prop :=
  expLE p.expiration_date q.expiration_date = true

instance : DecidableRel expOrder :=
  fun p q => inferInstanceAs (Decidable (expLE p.expiration_date q.expiration_date = true))

/-- Embedding of `CosmeticProductListView.get_queryset` (views.py lines
37-77): scope to the requesting user, apply the status / category / search
filters in order, then `order_by('expiration_date')` (modelled as a stable
sort on that one key — no further ordering key is named in the source). -/
def get_queryset (db : List Product) (userId : Nat) (status_filter : String)
    (category_filter : Option Nat) (search_query : String) (today : Int) : List Product :=
  let queryset := db.filter (fun p => p.userId == userId)
  let queryset := applyStatusFilter status_filter today queryset
  let queryset := applyCategoryFilter category_filter queryset
  let queryset := applySearchFilter search_query queryset
  List.insertionSort expOrder queryset

/-- Embedding of `CosmeticProductManager.get_soon_expiring_products`
(models.py lines 200-209): range `today+8 ≤ expiration_date ≤ today+30`,
then the optional user scope. -/
def get_soon_expiring_products (db : List Product) (user : Option Nat)
    (today : Int) : List Product :=
  let queryset := db.filter (fun p =>
    dGe p.expiration_date (today + 8) && dLe p.expiration_date (today + 30))
  match user with
  | some u => queryset.filter (fun p => p.userId == u)
  | none => queryset

/-! ### `CosmeticProductListView.get_context_data` tier counts
(views.py lines 84-98) -/

/-- The per-user collection `all_products` of views.py line 86. -/
def all_products (db : List Product) (u : Nat) : List Product :=
  db.filter (fun p => p.userId == u)

/-- The `expired_count` filter predicate (views.py line 88). -/
def expiredPred (p : Product) (today : Int) : Bool :=
  dLt p.expiration_date today

/-- The `urgent_count` filter predicate (views.py lines 89-92). -/
def urgentPred (p : Product) (today : Int) : Bool :=
  dGe p.expiration_date today && dLe p.expiration_date (today + 7)

/-- The `soon_count` filter predicate (views.py lines 93-96). -/
def soonPred (p : Product) (today : Int) : Bool :=
  dGt p.expiration_date (today + 7) && dLe p.expiration_date (today + 30)

/-- The `good_count` filter predicate (views.py line 97). -/
def goodPred (p : Product) (today : Int) : Bool :=
  dGt p.expiration_date (today + 30)

/-- The `expired_count` aggregate of views.py line 88. -/
def expired_count (db : List Product) (u : Nat) (today : Int) : Nat :=
  ((all_products db u).filter (fun p => expiredPred p today)).length

/-- The `urgent_count` aggregate of views.py lines 89-92. -/
def urgent_count (db : List Product) (u : Nat) (today : Int) : Nat :=
  ((all_products db u).filter (fun p => urgentPred p today)).length

/-- The `soon_count` aggregate of views.py lines 93-96. -/
def soon_count (db : List Product) (u : Nat) (today : Int) : Nat :=
  ((all_products db u).filter (fun p => soonPred p today)).length

/-- The `good_count` aggregate of views.py line 97. -/
def good_count (db : List Product) (u : Nat) (today : Int) : Nat :=
  ((all_products db u).filter (fun p => goodPred p today)).length

/-- The `total_count` aggregate of views.py line 98. -/
def total_count (db : List Product) (u : Nat) : Nat :=
  (all_products db u).length

/-! ### Example products -/

/-- The spec's PAO scenario, relative to a day `t` taken as "today":
opened 100 days ago, PAO 3 months, printed date 365 days ahead. -/
def openedExample (t : Int) : Product :=
  { name := "Serum", brandName := "DemoBrand", categoryId := none,
    categoryName := "", shade := "", userId := 1, expiration_date := some (t + 365),
    status := "opened", opened_date := some (t - 100), pao_after_opening := 3 }

/-- An unopened product expiring on day 5. -/
def unopenedExample : Product :=
  { name := "Mascara", brandName := "DemoBrand", categoryId := some 1,
    categoryName := "Makeup", shade := "", userId := 1, expiration_date := some 5,
    status := "unopened", opened_date := none, pao_after_opening := 12 }

/-- An unopened product expiring on day 10 (inside the soon window from 0). -/
def soonExample : Product :=
  { name := "Cream", brandName := "DemoBrand", categoryId := some 1,
    categoryName := "Skincare", shade := "", userId := 1, expiration_date := some 10,
    status := "unopened", opened_date := none, pao_after_opening := 12 }

/-- A product with null expiration_date that is opened with an opened date. -/
def nullExpirationOpened : Product :=
  { name := "Toner", brandName := "DemoBrand", categoryId := none,
    categoryName := "", shade := "", userId := 1, expiration_date := none,
    status := "opened", opened_date := some 0, pao_after_opening := 12 }

/-- A product with null expiration_date that is not opened. -/
def nullExpirationUnopened : Product :=
  { name := "Toner", brandName := "DemoBrand", categoryId := none,
    categoryName := "", shade := "", userId := 1, expiration_date := none,
    status := "unopened", opened_date := none, pao_after_opening := 12 }

/-- A product of the brand being searched for. -/
def brandAura : Product :=
  { name := "Lip Tint", brandName := "Aura", categoryId := some 1,
    categoryName := "Makeup", shade := "Rose", userId := 1, expiration_date := some 10,
    status := "unopened", opened_date := none, pao_after_opening := 12 }

/-- A product of another brand whose name contains the searched brand name. -/
def brandBasicDupe : Product :=
  { name := "Aura dupe balm", brandName := "Basic", categoryId := some 1,
    categoryName := "Makeup", shade := "", userId := 1, expiration_date := some 20,
    status := "unopened", opened_date := none, pao_after_opening := 12 }

/-- Product with a tying expiration date and the later brand name. -/
def tieBrandZ : Product :=
  { name := "Gel", brandName := "Zeta", categoryId := some 1,
    categoryName := "Makeup", shade := "", userId := 1, expiration_date := some 5,
    status := "unopened", opened_date := none, pao_after_opening := 12 }

/-- Product with the same expiration date and the earlier brand name. -/
def tieBrandA : Product :=
  { name := "Balm", brandName := "Alpha", categoryId := some 1,
    categoryName := "Makeup", shade := "", userId := 1, expiration_date := some 5,
    status := "unopened", opened_date := none, pao_after_opening := 12 }

/-! ### Helper lemmas -/

theorem mem_of_applyStatusFilter {sf : String} {today : Int} {qs : List Product}
    {p : Product} (h : p ∈ applyStatusFilter sf today qs) : p ∈ qs := by
  unfold applyStatusFilter at h
  split_ifs at h <;> first | exact h | exact (List.mem_filter.mp h).1

theorem mem_of_applyCategoryFilter {cf : Option Nat} {qs : List Product}
    {p : Product} (h : p ∈ applyCategoryFilter cf qs) : p ∈ qs := by
  cases cf with
  | none => exact h
  | some c => exact (List.mem_filter.mp h).1

theorem mem_of_applySearchFilter {sq : String} {qs : List Product}
    {p : Product} (h : p ∈ applySearchFilter sq qs) : p ∈ qs := by
  unfold applySearchFilter at h
  split_ifs at h
  · exact h
  · exact (List.mem_filter.mp h).1

theorem matchHere_self : ∀ l : List Char, matchHere l l = true
  | [] => rfl
  | c :: cs => by simp [matchHere, matchHere_self cs]

theorem matchSub_self (l : List Char) : matchSub l l = true := by
  cases l with
  | nil => rfl
  | cons c cs => simp [matchSub, matchHere_self]

theorem icontains_self (s : String) : icontains s s = true := by
  simp [icontains, matchSub_self]

theorem expLE_total (a b : Option Int) : expLE a b = true ∨ expLE b a = true := by
  cases a <;> cases b <;> simp [expLE]
  omega

theorem expLE_trans {a b c : Option Int} (h1 : expLE a b = true)
    (h2 : expLE b c = true) : expLE a c = true := by
  cases a <;> cases b <;> cases c <;> simp_all [expLE]
  omega

instance : IsTotal Product expOrder :=
  ⟨fun p q => expLE_total p.expiration_date q.expiration_date⟩

instance : IsTrans Product expOrder :=
  ⟨fun _ _ _ => expLE_trans⟩

theorem tier_preds_partition (p : Product) (t e : Int)
    (he : p.expiration_date = some e) :
    ((if expiredPred p t then 1 else 0) + (if urgentPred p t then 1 else 0) +
     (if soonPred p t then 1 else 0) + (if goodPred p t then 1 else 0) : Nat) = 1 := by
  simp only [expiredPred, urgentPred, soonPred, goodPred, dLt, dGe, dLe, dGt, he]
  rcases lt_or_ge e t with h1 | h1
  · have e2 : ¬ t ≤ e := by omega
    have e3 : ¬ t + 7 < e := by omega
    have e4 : ¬ t + 30 < e := by omega
    simp [h1, e2, e3, e4]
  · rcases le_or_lt e (t + 7) with h2 | h2
    · have e1 : ¬ e < t := by omega
      have e4 : ¬ t + 7 < e := by omega
      have e5 : ¬ t + 30 < e := by omega
      simp [h1, h2, e1, e4, e5]
    · rcases le_or_lt e (t + 30) with h3 | h3
      · have e1 : ¬ e < t := by omega
        have e2 : ¬ e ≤ t + 7 := by omega
        have e5 : ¬ t + 30 < e := by omega
        simp [h1, h2, h3, e1, e2, e5]
      · have e1 : ¬ e < t := by omega
        have e2 : ¬ e ≤ t + 7 := by omega
        have e3 : ¬ e ≤ t + 30 := by omega
        simp [h3, e1, e2, e3]

theorem countP_tier_partition (l : List Product) (t : Int)
    (h : ∀ p ∈ l, p.expiration_date ≠ none) :
    l.countP (fun p => expiredPred p t) + l.countP (fun p => urgentPred p t) +
      l.countP (fun p => soonPred p t) + l.countP (fun p => goodPred p t) =
      l.length := by
  induction l with
  | nil => rfl
  | cons a l ih =>
    obtain ⟨e, he⟩ : ∃ e, a.expiration_date = some e := by
      cases hx : a.expiration_date with
      | none => exact absurd hx (h a (by simp))
      | some e => exact ⟨e, rfl⟩
    have hone := tier_preds_partition a t e he
    have ih' := ih (fun p hp => h p (by simp [hp]))
    simp only [List.countP_cons, List.length_cons]
    omega

/-! ### The claims -/

/-- C1: effective expiration date is the earlier of the raw expiration date
and the PAO-derived date when opened-with-date, the raw date otherwise, and
in the spec's concrete PAO scenario it is today − 10 with tier "expired". -/
theorem effective_expiration_date_spec (p : Product) (ed od t : Int) :
    (p.status = "opened" → p.opened_date = some od → p.expiration_date = some ed →
      effective_expiration_date p =
        Except.ok (some (min ed (od + (p.pao_after_opening : Int) * 30)))) ∧
    (¬ (p.status = "opened" ∧ p.opened_date ≠ none) →
      effective_expiration_date p = Except.ok p.expiration_date) ∧
    effective_expiration_date (openedExample t) = Except.ok (some (t - 10)) ∧
    expiration_status (openedExample t) t = Except.ok "expired" := by
  refine ⟨?_, ?_, ?_, ?_⟩
  · intro h1 h2 h3
    unfold effective_expiration_date
    simp [h1, h2, h3]
  · intro h
    unfold effective_expiration_date
    cases hb : p.status == "opened" <;> cases ho : p.opened_date <;> try rfl
    exact absurd ⟨by simpa using hb, by simp [ho]⟩ h
  · unfold effective_expiration_date openedExample
    norm_num
    rw [min_eq_right (by omega)]
    omega
  · have h1 : effective_expiration_date (openedExample t) =
        Except.ok (some (t - 10)) := by
      unfold effective_expiration_date openedExample
      norm_num
      rw [min_eq_right (by omega)]
      omega
    unfold expiration_status days_until_expiration
    rw [h1]
    norm_num

/-- C1 witness at `p = openedExample 0`, `ed = 365`, `od = -100`, `t = 0`. -/
theorem effective_expiration_date_spec_witness :
    effective_expiration_date (openedExample 0) =
      Except.ok (some (min 365 ((-100) + ((openedExample 0).pao_after_opening : Int) * 30))) ∧
    expiration_status (openedExample 0) 0 = Except.ok "expired" := by
  have h := effective_expiration_date_spec (openedExample 0) 365 (-100) 0
  exact ⟨h.1 rfl rfl rfl, h.2.2.2⟩

/-- C2: the status tier is determined by days-until-expiration exactly as the
spec orders the tiers (unknown / expired / urgent 0..7 / soon 8..30 /
good >30), and the priority map sends expired,urgent,soon,good,unknown to
1,2,3,4,5. -/
theorem expiration_status_tiers_spec (p : Product) (today d : Int) :
    (effective_expiration_date p = Except.ok none →
      expiration_status p today = Except.ok "unknown" ∧
      days_until_expiration p today = Except.ok none ∧
      expiration_priority p today = Except.ok 5) ∧
    (days_until_expiration p today = Except.ok (some d) →
      expiration_status p today = Except.ok
        (if d < 0 then "expired"
         else if 0 ≤ d ∧ d ≤ 7 then "urgent"
         else if 8 ≤ d ∧ d ≤ 30 then "soon"
         else "good")) ∧
    (status_priority "expired" = 1 ∧ status_priority "urgent" = 2 ∧
     status_priority "soon" = 3 ∧ status_priority "good" = 4 ∧
     status_priority "unknown" = 5) ∧
    (∀ s, expiration_status p today = Except.ok s →
      expiration_priority p today = Except.ok (status_priority s)) := by
  refine ⟨?_, ?_, by decide, ?_⟩
  · intro h
    refine ⟨?_, ?_, ?_⟩
    · simp [expiration_status, h]
    · simp [days_until_expiration, h]
    · simp [expiration_priority, expiration_status, h, status_priority]
  · intro hd
    cases heff : effective_expiration_date p with
    | error e => simp [days_until_expiration, heff] at hd
    | ok o =>
      cases o with
      | none => simp [days_until_expiration, heff] at hd
      | some e =>
        have he : e - today = d := by
          simpa [days_until_expiration, heff] using hd
        subst he
        have hcode : expiration_status p today =
            Except.ok (if e - today < 0 then "expired"
              else if e - today ≤ 7 then "urgent"
              else if e - today ≤ 30 then "soon" else "good") := by
          simp [expiration_status, heff, hd]
        rw [hcode]
        split_ifs <;> first | rfl | omega
  · intro s hs
    simp [expiration_priority, hs]

/-- C2 witness: the urgent tier and priority 2 at a product expiring in
5 days, via the theorem at `d = 5`. -/
theorem expiration_status_tiers_spec_witness :
    expiration_status unopenedExample 0 = Except.ok "urgent" ∧
    expiration_priority unopenedExample 0 = Except.ok 2 := by
  have h := expiration_status_tiers_spec unopenedExample 0 5
  have hd : days_until_expiration unopenedExample 0 = Except.ok (some 5) := by
    simp [days_until_expiration, effective_expiration_date, unopenedExample]
  have hs := h.2.1 hd
  norm_num at hs
  refine ⟨hs, ?_⟩
  have hp := h.2.2.2 "urgent" hs
  simpa [status_priority] using hp

/-- C3: in the base list view each status-tier value filters by a date range
on the raw `expiration_date`; a product opened long ago still lands in the
"good" bucket when its printed date is far away, even though the calculator
rates it "expired" by the PAO-adjusted date. -/
theorem list_view_raw_date_filter_spec (db : List Product) (u : Nat) (today : Int)
    (p : Product) :
    (p ∈ get_queryset db u "expired" none "" today ↔
      p ∈ db ∧ p.userId = u ∧ ∃ e, p.expiration_date = some e ∧ e < today) ∧
    (p ∈ get_queryset db u "urgent" none "" today ↔
      p ∈ db ∧ p.userId = u ∧
        ∃ e, p.expiration_date = some e ∧ today ≤ e ∧ e ≤ today + 7) ∧
    (p ∈ get_queryset db u "soon" none "" today ↔
      p ∈ db ∧ p.userId = u ∧
        ∃ e, p.expiration_date = some e ∧ today + 7 < e ∧ e ≤ today + 30) ∧
    (p ∈ get_queryset db u "good" none "" today ↔
      p ∈ db ∧ p.userId = u ∧ ∃ e, p.expiration_date = some e ∧ today + 30 < e) ∧
    (openedExample today ∈ get_queryset [openedExample today] 1 "good" none "" today ∧
      expiration_status (openedExample today) today = Except.ok "expired") := by
  refine ⟨?_, ?_, ?_, ?_, ?_, ?_⟩
  · cases hpe : p.expiration_date with
    | none =>
      simp [get_queryset, applyStatusFilter, applyCategoryFilter, applySearchFilter,
        List.mem_filter, dLt, hpe]
    | some e =>
      simp [get_queryset, applyStatusFilter, applyCategoryFilter, applySearchFilter,
        List.mem_filter, dLt, hpe]
      tauto
  · cases hpe : p.expiration_date with
    | none =>
      simp [get_queryset, applyStatusFilter, applyCategoryFilter, applySearchFilter,
        List.mem_filter, dGe, dLe, hpe]
    | some e =>
      simp [get_queryset, applyStatusFilter, applyCategoryFilter, applySearchFilter,
        List.mem_filter, dGe, dLe, hpe]
      tauto
  · cases hpe : p.expiration_date with
    | none =>
      simp [get_queryset, applyStatusFilter, applyCategoryFilter, applySearchFilter,
        List.mem_filter, dGt, dLe, hpe]
    | some e =>
      simp [get_queryset, applyStatusFilter, applyCategoryFilter, applySearchFilter,
        List.mem_filter, dGt, dLe, hpe]
      tauto
  · cases hpe : p.expiration_date with
    | none =>
      simp [get_queryset, applyStatusFilter, applyCategoryFilter, applySearchFilter,
        List.mem_filter, dGt, hpe]
    | some e =>
      simp [get_queryset, applyStatusFilter, applyCategoryFilter, applySearchFilter,
        List.mem_filter, dGt, hpe]
      tauto
  · simp [get_queryset, applyStatusFilter, applyCategoryFilter, applySearchFilter,
      List.mem_filter, openedExample, dGt]
  · have h1 : effective_expiration_date (openedExample today) =
        Except.ok (some (today - 10)) := by
      unfold effective_expiration_date openedExample
      norm_num
      rw [min_eq_right (by omega)]
      omega
    unfold expiration_status days_until_expiration
    rw [h1]
    norm_num

/-- C3 witness: the expired bucket at a concrete collection, and the
raw-date "good" selection of a PAO-expired product. -/
theorem list_view_raw_date_filter_spec_witness :
    unopenedExample ∈ get_queryset [unopenedExample] 1 "expired" none "" 6 ∧
    openedExample 0 ∈ get_queryset [openedExample 0] 1 "good" none "" 0 := by
  refine ⟨?_, ?_⟩
  · exact (list_view_raw_date_filter_spec [unopenedExample] 1 6 unopenedExample).1.mpr
      ⟨by simp, rfl, 5, rfl, by norm_num⟩
  · exact (list_view_raw_date_filter_spec [openedExample 0] 1 0 (openedExample 0)).2.2.2.2.1

/-- C4 (code bug): a null `expiration_date` is supposed to yield the "unknown"
tier without throwing, and does so while the product is not opened-with-date;
but on an opened product with an `opened_date`, `min(self.expiration_date,
pao_expiry)` in `effective_expiration_date` raises `TypeError` (Python 3
cannot order `None` against a `date`), so `expiration_status` and
`expiration_priority` propagate the exception instead of returning
"unknown" / 5. -/
theorem null_expiration_opened_raises :
    expiration_status nullExpirationUnopened 0 = Except.ok "unknown" ∧
    days_until_expiration nullExpirationUnopened 0 = Except.ok none ∧
    expiration_priority nullExpirationUnopened 0 = Except.ok 5 ∧
    effective_expiration_date nullExpirationOpened = Except.error "TypeError" ∧
    expiration_status nullExpirationOpened 0 = Except.error "TypeError" ∧
    expiration_priority nullExpirationOpened 0 = Except.error "TypeError" := by
  refine ⟨?_, ?_, ?_, ?_, ?_, ?_⟩ <;>
    simp [expiration_status, days_until_expiration, effective_expiration_date,
      expiration_priority, status_priority, nullExpirationUnopened, nullExpirationOpened]

/-- C5: a category id carried by no product in the collection yields an empty
result rather than an error, and an unrecognized non-empty status-tier value
is treated as no filter at all. -/
theorem invalid_filter_values_spec (db : List Product) (u : Nat) (today : Int)
    (c : Nat) (s : String) :
    ((∀ p ∈ db, p.categoryId ≠ some c) →
      get_queryset db u "" (some c) "" today = []) ∧
    (s ≠ "" → s ≠ "expired" → s ≠ "urgent" → s ≠ "soon" → s ≠ "good" →
      get_queryset db u s none "" today = get_queryset db u "" none "" today) := by
  constructor
  · intro h
    have hnil : (db.filter (fun p => p.userId == u)).filter
        (fun p => p.categoryId == some c) = [] := by
      rw [List.filter_eq_nil_iff]
      intro a ha
      have := h a (List.mem_filter.mp ha).1
      simp [this]
    simp [get_queryset, applyStatusFilter, applyCategoryFilter, applySearchFilter,
      hnil, List.insertionSort]
  · intro h1 h2 h3 h4 h5
    simp only [get_queryset, applyStatusFilter]
    rw [if_neg h1, if_neg h2, if_neg h3, if_neg h4, if_neg h5]
    simp

/-- C5 witness: category id 99 matches nothing, and the status value "bogus"
filters nothing, on a one-product collection. -/
theorem invalid_filter_values_spec_witness :
    get_queryset [unopenedExample] 1 "" (some 99) "" 0 = [] ∧
    get_queryset [unopenedExample] 1 "bogus" none "" 0 =
      get_queryset [unopenedExample] 1 "" none "" 0 := by
  have h := invalid_filter_values_spec [unopenedExample] 1 0 99 "bogus"
  exact ⟨h.1 (by decide), h.2 (by decide) (by decide) (by decide) (by decide) (by decide)⟩

/-- C6: every product the list query returns belongs to the requesting user,
whatever combination of status, category and search filters is given. -/
theorem user_scoping_spec (db : List Product) (u : Nat) (sf : String)
    (cf : Option Nat) (sq : String) (today : Int) (p : Product) :
    p ∈ get_queryset db u sf cf sq today → p.userId = u := by
  intro h
  simp only [get_queryset, List.mem_insertionSort] at h
  have h1 := mem_of_applySearchFilter h
  have h2 := mem_of_applyCategoryFilter h1
  have h3 := mem_of_applyStatusFilter h2
  simpa using (List.mem_filter.mp h3).2

/-- C6 witness: at a one-product collection with a search filter, the returned
product's owner is user 1. -/
theorem user_scoping_spec_witness : unopenedExample.userId = 1 :=
  user_scoping_spec [unopenedExample] 1 "" none "Mascara" 0 unopenedExample (by decide)

/-- C7 counterexample: searching the exact brand name "Aura" also returns a
product of brand "Basic" whose name merely contains "Aura", so the result is
not exactly the products of that brand. -/
theorem search_exact_brand_counterexample :
    brandBasicDupe ∈ get_queryset [brandAura, brandBasicDupe] 1 "" none "Aura" 0 ∧
    brandBasicDupe.brandName ≠ "Aura" := by
  refine ⟨by decide, by decide⟩

/-- C7 (amended): a product is returned by the search query iff it belongs to
the user and either the search text is empty or the OR-combined
case-insensitive substring match over name, brand, category and shade accepts
it; consequently a search for a brand's exact name returns every product of
that brand (but possibly also products of other brands matched through
another field). -/
theorem search_filter_spec (db : List Product) (u : Nat) (today : Int)
    (s : String) (p : Product) :
    (p ∈ get_queryset db u "" none s today ↔
      p ∈ db ∧ p.userId = u ∧ (s = "" ∨ searchMatch p s = true)) ∧
    (p ∈ db → p.userId = u → p.brandName = s →
      p ∈ get_queryset db u "" none s today) := by
  have hmain : p ∈ get_queryset db u "" none s today ↔
      p ∈ db ∧ p.userId = u ∧ (s = "" ∨ searchMatch p s = true) := by
    by_cases hs : s = ""
    · subst hs
      simp [get_queryset, applyStatusFilter, applyCategoryFilter, applySearchFilter,
        List.mem_filter]
    · simp [get_queryset, applyStatusFilter, applyCategoryFilter, applySearchFilter,
        List.mem_filter, hs, and_assoc]
      tauto
  refine ⟨hmain, fun hdb hu hb => hmain.mpr ⟨hdb, hu, ?_⟩⟩
  refine Or.inr ?_
  have hself : icontains p.brandName s = true := by
    rw [← hb]; exact icontains_self _
  simp [searchMatch, hself]

/-- C7 witness: searching "Aura" does return the brand-"Aura" product, via the
second component at a concrete collection. -/
theorem search_filter_spec_witness :
    brandAura ∈ get_queryset [brandAura, brandBasicDupe] 1 "" none "Aura" 0 :=
  (search_filter_spec [brandAura, brandBasicDupe] 1 0 "Aura" brandAura).2
    (by decide) rfl rfl

/-- C8 counterexample: two products tie on expiration_date yet the query
returns them in input order with brand "Zeta" before brand "Alpha", so ties
are not broken by brand (nor name): `order_by` names only expiration_date. -/
theorem ordering_tiebreak_counterexample :
    get_queryset [tieBrandZ, tieBrandA] 1 "" none "" 0 = [tieBrandZ, tieBrandA] ∧
    tieBrandZ.expiration_date = tieBrandA.expiration_date ∧
    tieBrandA.brandName < tieBrandZ.brandName := by
  refine ⟨by decide, by decide, ?_⟩
  show ("Alpha" : String) < "Zeta"
  norm_num
  exact List.Lex.rel (by decide)

/-- C8 (amended): the list query is ordered ascending by expiration_date and
is a reordering of the filtered selection; no tie-breaking key beyond
expiration_date is applied. -/
theorem ordering_by_expiration_spec (db : List Product) (u : Nat) (sf : String)
    (cf : Option Nat) (sq : String) (today : Int) :
    List.Sorted expOrder (get_queryset db u sf cf sq today) ∧
    (get_queryset db u sf cf sq today).Perm
      (applySearchFilter sq (applyCategoryFilter cf (applyStatusFilter sf today
        (db.filter (fun p => p.userId == u))))) := by
  constructor
  · simp only [get_queryset]
    exact List.sorted_insertionSort expOrder _
  · simp only [get_queryset]
    exact List.perm_insertionSort expOrder _

/-- C9: the manager's soon window `today+8 ≤ e ≤ today+30` and the list view's
`today+7 < e ≤ today+30` are the same predicate on whole-day dates, and the
two soon queries select the same products. -/
theorem soon_boundary_equiv_spec (db : List Product) (u : Nat) (today : Int)
    (p : Product) :
    (∀ eo : Option Int, (dGe eo (today + 8) && dLe eo (today + 30)) =
        (dGt eo (today + 7) && dLe eo (today + 30))) ∧
    (p ∈ get_soon_expiring_products db (some u) today ↔
      p ∈ get_queryset db u "soon" none "" today) := by
  have hpt : ∀ eo : Option Int, (dGe eo (today + 8) && dLe eo (today + 30)) =
      (dGt eo (today + 7) && dLe eo (today + 30)) := by
    intro eo
    cases eo with
    | none => rfl
    | some e =>
      have h8 : (today + 8 ≤ e) = (today + 7 < e) := propext (by omega)
      simp [dGe, dGt, dLe, h8]
  refine ⟨hpt, ?_⟩
  have hpred : (fun q : Product => dGe q.expiration_date (today + 8) &&
        dLe q.expiration_date (today + 30)) =
      (fun q : Product => dGt q.expiration_date (today + 7) &&
        dLe q.expiration_date (today + 30)) := by
    funext q
    exact hpt q.expiration_date
  simp [get_soon_expiring_products, get_queryset, applyStatusFilter,
    applyCategoryFilter, applySearchFilter, List.mem_filter, hpred]
  tauto

/-- C9 witness: a product expiring on day 10 is selected by both soon queries,
via the equivalence at a concrete collection. -/
theorem soon_boundary_equiv_spec_witness :
    soonExample ∈ get_queryset [soonExample] 1 "soon" none "" 0 :=
  (soon_boundary_equiv_spec [soonExample] 1 0 soonExample).2.mp (by decide)

/-- C10: when every product has an expiration date, the four dashboard tier
predicates classify each user product into exactly one bucket, so the four
counts add up to the total count. -/
theorem tier_counts_partition_spec (db : List Product) (u : Nat) (today : Int)
    (h : ∀ p ∈ db, p.expiration_date ≠ none) :
    (∀ p ∈ all_products db u,
      ((if expiredPred p today then 1 else 0) + (if urgentPred p today then 1 else 0) +
       (if soonPred p today then 1 else 0) + (if goodPred p today then 1 else 0) : Nat) = 1) ∧
    expired_count db u today + urgent_count db u today + soon_count db u today +
      good_count db u today = total_count db u := by
  have hall : ∀ p ∈ all_products db u, p.expiration_date ≠ none := by
    intro p hp
    have : p ∈ db := by
      have := List.mem_filter.mp (show p ∈ db.filter (fun q => q.userId == u) from hp)
      exact this.1
    exact h p this
  constructor
  · intro p hp
    obtain ⟨e, he⟩ : ∃ e, p.expiration_date = some e := by
      cases hx : p.expiration_date with
      | none => exact absurd hx (hall p hp)
      | some e => exact ⟨e, rfl⟩
    exact tier_preds_partition p today e he
  · have hsum := countP_tier_partition (all_products db u) today hall
    simpa [expired_count, urgent_count, soon_count, good_count, total_count,
      List.countP_eq_length_filter] using hsum

/-- C10 witness: on a two-product collection with known dates the counts add
up to the total. -/
theorem tier_counts_partition_spec_witness :
    expired_count [unopenedExample, soonExample] 1 0 +
      urgent_count [unopenedExample, soonExample] 1 0 +
      soon_count [unopenedExample, soonExample] 1 0 +
      good_count [unopenedExample, soonExample] 1 0 =
      total_count [unopenedExample, soonExample] 1 :=
  (tier_counts_partition_spec [unopenedExample, soonExample] 1 0 (by decide)).2

end Cosmetics
